import Mathlib

/-
Verification of the EduSync schedule-quality scoring and optimization-guidance
engine, shallowly embedded from the JavaScript sources:
  ScheduleMLModel (heuristic scorer, normalizers, lifecycle, recommendations),
  scheduleOptimizer.js (diagnostics / suggestion engine),
  dataPreprocessor.js (train/validation/test split).
JS numbers are modelled as rationals; absent (null/undefined) values as Option;
JS truthiness is modelled explicitly where the code branches on it.
-/

/-- A course record, with the fields read by the scoring engine:
Mongo identifier (modelled as a natural number), name, capacity,
year level and lecture type. -/
structure Course where
  oid : Nat
  name : String
  capacity : ℚ
  year : Nat
  lectureType : String
deriving DecidableEq, Repr

/-- A teacher's availability value: the code distinguishes a numeric
availability from an availability map (object), whose values form a boolean
grid. -/
inductive Availability where
  | num (v : ℚ)
  | grid (slots : List Bool)
deriving DecidableEq, Repr

/-- A teacher record with the fields read by the scoring engine.  The
`expertise` and `teachableYears` arrays and the `availability` value may be
absent in the source data, hence `Option`. -/
structure Teacher where
  oid : Nat
  expertise : Option (List String)
  teachableYears : Option (List Nat)
  availability : Option Availability
deriving DecidableEq, Repr

/-- A room record with the fields read by the scoring engine. -/
structure Room where
  oid : Nat
  capacity : ℚ
  type : String
deriving DecidableEq, Repr

/-- One (course, teacher, room, day, time-slot) assignment as consumed by
`calculateHeuristicScore`; every field is guarded by a truthiness check in the
source, hence `Option`. -/
structure ScheduleItem where
  course : Option Course
  teacher : Option Teacher
  room : Option Room
  timeSlot : Option String
  day : Option String
deriving DecidableEq, Repr

/-- A stored schedule row as consumed by `getOptimizationSuggestions`: the
course, teacher and room are identifier references to be resolved against the
entity lists. -/
structure DBItem where
  course : Nat
  teacher : Nat
  room : Nat
  startTime : String
  day : String
deriving DecidableEq, Repr

/-- JS `String.prototype.toLowerCase`, modelled character-wise. -/
def jsToLower (s : String) : String := String.mk (s.toList.map Char.toLower)

/-- JS `String.prototype.includes` on character lists: `sub` occurs
contiguously in `l`. -/
def listIncludes (l sub : List Char) : Bool :=
  l.tails.any (fun t => sub.isPrefixOf t)

/-- JS `s.includes(sub)` for strings. -/
def strIncludes (s sub : String) : Bool :=
  listIncludes s.toList sub.toList

/-- The expertise test shared by `calculateHeuristicScore` and
`isTeacherSuitable`:
`expertise.some(exp => course.name.toLowerCase().includes(exp.toLowerCase()))`. -/
def expertiseMatches (es : List String) (courseName : String) : Bool :=
  es.any (fun e => strIncludes (jsToLower courseName) (jsToLower e))

/-- The `roomTypeMatch` lookup table written literally in both
`calculateHeuristicScore` and `normalizeRoomTypeMatch`. -/
def roomTypeMatchTable : List (String × String) :=
  [("classroom", "theory"), ("lab", "lab"), ("lecture-hall", "theory")]

/-- `Math.max(0, Math.min(1, score))`, the final clamp of the heuristic
scorer. -/
def clamp01 (s : ℚ) : ℚ := max 0 (min 1 s)

/-- The "Course-Teacher compatibility" block of `calculateHeuristicScore`:
expertise keyword match (+0.2 / -0.1, only when the expertise array is present
and non-empty) followed by the experience bonus
`Math.min(teachableYears.length * 0.05, 0.15)` (only when the array is
present; `[]` is truthy in JS). -/
def teacherCompatAdjust : Option Teacher → Option Course → ℚ → ℚ
  | some t, some c, score =>
    let score :=
      match t.expertise with
      | some es =>
        if 0 < es.length then
          (if expertiseMatches es c.name then score + 0.2 else score - 0.1)
        else score
      | none => score
    match t.teachableYears with
    | some ys => score + min ((ys.length : ℚ) * 0.05) 0.15
    | none => score
  | _, _, score => score

/-- The "Room suitability" block of `calculateHeuristicScore`: capacity
sufficiency (+0.1 / -0.2) and room-type/lecture-type match (+0.1) through
`roomTypeMatchTable`. -/
def roomSuitabilityAdjust : Option Room → Option Course → ℚ → ℚ
  | some r, some c, score =>
    let score := if c.capacity ≤ r.capacity then score + 0.1 else score - 0.2
    if roomTypeMatchTable.lookup r.type = some c.lectureType then score + 0.1
    else score
  | _, _, score => score

/-- The "Time preferences" block of `calculateHeuristicScore`: +0.1 for the
morning slots 09:00/10:00 and -0.05 for 16:00; the whole block is guarded by
the truthiness of `timeSlot` (the empty string is falsy). -/
def timePreferenceAdjust : Option String → ℚ → ℚ
  | some ts, score =>
    if ts ≠ "" then
      let score := if ts = "09:00" ∨ ts = "10:00" then score + 0.1 else score
      if ts = "16:00" then score - 0.05 else score
    else score
  | none, score => score

/-- The "Day preferences" block of `calculateHeuristicScore`: -0.05 on Monday
or Friday, guarded by the truthiness of `day`. -/
def dayPreferenceAdjust : Option String → ℚ → ℚ
  | some d, score =>
    if d ≠ "" then
      (if d = "Monday" ∨ d = "Friday" then score - 0.05 else score)
    else score
  | none, score => score

/-- The "Teacher availability" block of `calculateHeuristicScore`:
`score += availability * 0.1` when the availability value is truthy and of
numeric type. -/
def availabilityAdjust : Option Teacher → ℚ → ℚ
  | some t, score =>
    match t.availability with
    | some (Availability.num v) => if v ≠ 0 then score + v * 0.1 else score
    | _ => score
  | none, score => score

/-- `calculateHeuristicScore` from ScheduleMLModel: base score 0.5, the five
adjustment blocks applied in source order, and the final clamp to [0,1]. -/
def calculateHeuristicScore (item : ScheduleItem) : ℚ :=
  clamp01
    (availabilityAdjust item.teacher
      (dayPreferenceAdjust item.day
        (timePreferenceAdjust item.timeSlot
          (roomSuitabilityAdjust item.room item.course
            (teacherCompatAdjust item.teacher item.course 0.5)))))

/-- `normalizeTimePreference`: 0.5 when the preferred-slot list is absent or
empty, otherwise 1 or 0 by membership. -/
def normalizeTimePreference (timeSlot : String)
    (preferredSlots : Option (List String)) : ℚ :=
  match preferredSlots with
  | none => 0.5
  | some ps => if ps.length = 0 then 0.5 else (if ps.contains timeSlot then 1 else 0)

/-- `normalizeRoomTypeMatch`: 1 when the room type maps to the lecture type in
the `roomTypeMatch` table, else 0. -/
def normalizeRoomTypeMatch (roomType lectureType : String) : ℚ :=
  if roomTypeMatchTable.lookup roomType = some lectureType then 1 else 0

/-- The `timeMap` literal of `normalizeTimeOfDay`. -/
def timeMap : List (String × ℚ) :=
  [("09:00", 0.1), ("10:00", 0.2), ("11:00", 0.3), ("12:00", 0.4),
   ("13:00", 0.5), ("14:00", 0.6), ("15:00", 0.7), ("16:00", 0.8)]

/-- JS `v || d` on an optional number: the default is taken when the value is
absent or falsy (zero). -/
def jsNumOr (v : Option ℚ) (d : ℚ) : ℚ :=
  match v with
  | some x => if x = 0 then d else x
  | none => d

/-- `normalizeTimeOfDay`: `timeMap[timeSlot] || 0.5`. -/
def normalizeTimeOfDay (timeSlot : String) : ℚ :=
  jsNumOr (timeMap.lookup timeSlot) 0.5

/-- The `dayMap` literal of `normalizeDayOfWeek`. -/
def dayMap : List (String × ℚ) :=
  [("Monday", 0.1), ("Tuesday", 0.2), ("Wednesday", 0.3),
   ("Thursday", 0.4), ("Friday", 0.5)]

/-- `normalizeDayOfWeek`: `dayMap[day] || 0.5`. -/
def normalizeDayOfWeek (day : String) : ℚ :=
  jsNumOr (dayMap.lookup day) 0.5

/-- `normalizeAvailability`: 0.5 when the availability value is falsy (absent
or the number 0); otherwise the count of truthy values of the object divided
by 40 (a number has no object values, an availability map contributes its
truthy slots). -/
def normalizeAvailability : Option Availability → ℚ
  | none => 0.5
  | some (Availability.num v) => if v = 0 then 0.5 else 0
  | some (Availability.grid g) => ((g.countP (fun b => b)) : ℚ) / 40

/-- The active scorer backend held in `this.model`: the heuristic fallback
object created by `createModel`, or a TensorFlow layers model.  The loaded
TensorFlow model's forward computation is library code, abstracted as an
item-scoring function. -/
inductive ModelBackend where
  | tensorflowModel (forward : ScheduleItem → ℚ)
  | heuristicModel

/-- Per-item score of the active backend: the heuristic fallback's `predict`
maps `calculateHeuristicScore` over the batch, and the TensorFlow model
applies its forward pass. -/
def ModelBackend.scoreOne : ModelBackend → ScheduleItem → ℚ
  | ModelBackend.tensorflowModel f, it => f it
  | ModelBackend.heuristicModel, it => calculateHeuristicScore it

/-- The mutable state of a `ScheduleMLModel` instance: `this.model`,
`this.isTrained` and `this.isTensorFlow`. -/
structure ScheduleMLModel where
  model : Option ModelBackend
  isTrained : Bool
  isTensorFlow : Bool

/-- The constructor state: `this.model = null`, `this.isTrained = false`. -/
def ScheduleMLModel.init : ScheduleMLModel :=
  { model := none, isTrained := false, isTensorFlow := false }

/-- The outcome of `loadTensorFlow()`: the numeric backend resolves (in which
case `createModel` would build a fresh untrained network, abstracted by its
forward function `fresh`), or the dynamic import failed. -/
inductive TFAvail where
  | yes (fresh : ScheduleItem → ℚ)
  | no

/-- `createModel`: with TensorFlow available it builds and installs a fresh
(untrained) network and records `isTensorFlow = true`; otherwise it installs
the simplified heuristic fallback object and records `isTensorFlow = false`.
It does not set `isTrained`. -/
def createModel (m : ScheduleMLModel) : TFAvail → ScheduleMLModel
  | TFAvail.yes fresh =>
    { m with model := some (ModelBackend.tensorflowModel fresh),
             isTensorFlow := true }
  | TFAvail.no =>
    { m with model := some ModelBackend.heuristicModel,
             isTensorFlow := false }

/-- The environment a `loadModel(path)` call runs in: TensorFlow resolves and
the saved weights load (`loaded`; `fresh` is the network `createModel` would
build, unused on this path), TensorFlow resolves but `loadLayersModel` throws
(missing weight files or incompatible format — the cached import means the
later `catch` still sees TensorFlow available and its `createModel` builds
`fresh`), or the dynamic import of the numeric backend fails. -/
inductive LoadEnv where
  | loadOk (loaded fresh : ScheduleItem → ℚ)
  | loadFail (fresh : ScheduleItem → ℚ)
  | noTF

/-- The TensorFlow availability a `createModel()` call sees in the given
environment (`loadTensorFlow` caches a successful import). -/
def LoadEnv.tfAvail : LoadEnv → TFAvail
  | LoadEnv.loadOk _ fresh => TFAvail.yes fresh
  | LoadEnv.loadFail fresh => TFAvail.yes fresh
  | LoadEnv.noTF => TFAvail.no

/-- The `try` block of `loadModel`: with TensorFlow available it installs the
loaded model, marks it trained and returns `true`; with TensorFlow unavailable
it runs `createModel` (heuristic fallback), marks it trained and returns
`true`; a failing `loadLayersModel` raises out of the block. -/
def loadModelTry (m : ScheduleMLModel) : LoadEnv →
    Except String (ScheduleMLModel × Bool)
  | LoadEnv.loadOk loaded _ =>
    Except.ok ({ m with model := some (ModelBackend.tensorflowModel loaded),
                        isTrained := true, isTensorFlow := true }, true)
  | LoadEnv.loadFail _ => Except.error "load failed"
  | LoadEnv.noTF =>
    Except.ok ({ createModel m TFAvail.no with isTrained := true }, true)

/-- `loadModel`: the `try` block with its `catch`, which runs `createModel()`
again under the ambient TensorFlow availability, marks the model trained and
still returns `true` — no failure escapes the function.  Because the cached
dynamic import persists, the `catch` (reached only when `loadLayersModel` threw)
installs a fresh untrained TensorFlow network, not the heuristic fallback. -/
def loadModel (m : ScheduleMLModel) (env : LoadEnv) : ScheduleMLModel × Bool :=
  match loadModelTry m env with
  | Except.ok res => res
  | Except.error _ =>
    ({ createModel m env.tfAvail with isTrained := true }, true)

/-- `predict(scheduleData)`: throws `Model not trained yet` unless a model is
installed and trained, then scores the batch item-wise with the active
backend. -/
def predict (m : ScheduleMLModel) (data : List ScheduleItem) :
    Except String (List ℚ) :=
  match m.model, m.isTrained with
  | none, _ => Except.error "Model not trained yet"
  | some _, false => Except.error "Model not trained yet"
  | some backend, true => Except.ok (data.map backend.scoreOne)

/-- The ready state holding the heuristic fallback (the state `loadModel`
produces when the numeric backend is unavailable). -/
def heuristicReady : ScheduleMLModel :=
  { model := some ModelBackend.heuristicModel, isTrained := true,
    isTensorFlow := false }

/-- `isTeacherSuitable`: the teacher's teachable years include the course's
year and some expertise keyword occurs in the course name (optional chaining
makes an absent array fail the test). -/
def isTeacherSuitable (course : Course) (teacher : Teacher) : Bool :=
  (match teacher.teachableYears with
   | some ys => ys.contains course.year
   | none => false) &&
  (match teacher.expertise with
   | some es => expertiseMatches es course.name
   | none => false)

/-- `isRoomSuitable`: sufficient capacity and exact room-type equality with
`lab` for lab courses and `classroom` for every other lecture type. -/
def isRoomSuitable (course : Course) (room : Room) : Bool :=
  (course.capacity ≤ room.capacity) &&
  (room.type = (if course.lectureType = "lab" then "lab" else "classroom"))

/-- `getAvailableTimeSlots`: the fixed list of eight slots. -/
def getAvailableTimeSlots : List String :=
  ["09:00", "10:00", "11:00", "12:00", "13:00", "14:00", "15:00", "16:00"]

/-- `calculateConfidence`: `Math.round(score * 100)` (round half towards
positive infinity, as `round` does on ℚ). -/
def calculateConfidence (score : ℚ) : ℤ := round (score * 100)

/-- One entry of a course's recommendation list: the spread schedule item with
its score and confidence. -/
structure Recommendation where
  course : Course
  teacher : Teacher
  room : Room
  timeSlot : String
  day : String
  score : ℚ
  confidence : ℤ
deriving DecidableEq, Repr

/-- The inner loop of `generateRecommendations` for one course: every
(suitable teacher, suitable room, time slot) combination is scored, the list
is sorted by `(a, b) => b.score - a.score` and the first five are kept.
`dayChoice` stands for one draw of the `getOptimalDay` randomness
(`days[Math.floor(Math.random() * days.length)]`), and the backend must be
ready or `predict` would throw.  JS `Array.prototype.sort` with a consistent
comparator is the stable descending-by-score ordering, i.e. Mathlib's
`insertionSort` with `b.score ≤ a.score`. -/
def recommendationsForCourse (backend : ModelBackend)
    (dayChoice : Course → Teacher → Room → String)
    (course : Course) (teachers : List Teacher) (rooms : List Room) :
    List Recommendation :=
  let candidates :=
    (teachers.filter (fun t => isTeacherSuitable course t)).flatMap (fun t =>
      (rooms.filter (fun r => isRoomSuitable course r)).flatMap (fun r =>
        getAvailableTimeSlots.map (fun ts =>
          let day := dayChoice course t r
          let item : ScheduleItem :=
            ⟨some course, some t, some r, some ts, some day⟩
          let score := backend.scoreOne item
          { course := course, teacher := t, room := r, timeSlot := ts,
            day := day, score := score,
            confidence := calculateConfidence score })))
  (candidates.insertionSort (fun a b => b.score ≤ a.score)).take 5

/-- `generateRecommendations`: the per-course lists, in course order. -/
def generateRecommendations (backend : ModelBackend)
    (dayChoice : Course → Teacher → Room → String)
    (courses : List Course) (teachers : List Teacher) (rooms : List Room) :
    List (Course × List Recommendation) :=
  courses.map (fun c =>
    (c, recommendationsForCourse backend dayChoice c teachers rooms))

/-- A suggestion emitted by `getOptimizationSuggestions`. -/
structure Suggestion where
  type : String
  item : DBItem
  currentScore : ℚ
  reason : String
  priority : String
deriving DecidableEq, Repr

/-- `getOptimizationReason`: the ordered reason checks (very poor / below
average quality, room-capacity mismatch, teacher-year mismatch) joined with
", ", defaulting to `General optimization needed` when empty. -/
def getOptimizationReason (si : ScheduleItem) (score : ℚ) : String :=
  let reasons : List String := []
  let reasons :=
    if score < 0.3 then reasons ++ ["Very poor schedule quality"]
    else if score < 0.5 then reasons ++ ["Below average schedule quality"]
    else reasons
  let reasons :=
    match si.room, si.course with
    | some r, some c =>
      if r.capacity < c.capacity then reasons ++ ["Room capacity mismatch"]
      else reasons
    | _, _ => reasons
  let reasons :=
    match si.teacher, si.course with
    | some t, some c =>
      match t.teachableYears with
      | some ys =>
        if ys.contains c.year then reasons
        else reasons ++ ["Teacher not suitable for course level"]
      | none => reasons
    | _, _ => reasons
  let joined := String.intercalate ", " reasons
  if joined = "" then "General optimization needed" else joined

/-- The analysis loop of `getOptimizationSuggestions` (scheduleOptimizer.js):
each schedule row whose course, teacher and room references resolve is scored
by the active model (`scoreFn` abstracts `this.mlModel.predict` on a ready
model) and pushed as a high-priority `reschedule` suggestion when the score is
below 0.4, a medium-priority `improve` suggestion when below 0.6, and skipped
otherwise.  The surrounding guard returns an empty list when no model is
loaded. -/
def suggestionStep (scoreFn : ScheduleItem → ℚ) (courses : List Course)
    (teachers : List Teacher) (rooms : List Room)
    (suggestions : List Suggestion) (item : DBItem) : List Suggestion :=
  match courses.find? (fun c => c.oid = item.course),
        teachers.find? (fun t => t.oid = item.teacher),
        rooms.find? (fun r => r.oid = item.room) with
  | some course, some teacher, some room =>
    let si : ScheduleItem :=
      ⟨some course, some teacher, some room, some item.startTime,
       some item.day⟩
    let score := scoreFn si
    if score < 0.4 then
      suggestions ++
        [{ type := "reschedule", item := item, currentScore := score,
           reason := getOptimizationReason si score, priority := "high" }]
    else if score < 0.6 then
      suggestions ++
        [{ type := "improve", item := item, currentScore := score,
           reason := getOptimizationReason si score, priority := "medium" }]
    else suggestions
  | _, _, _ => suggestions

/-- `getOptimizationSuggestions`: the accumulated suggestions over the whole
schedule (the `suggestions` array the loop pushes into). -/
def getOptimizationSuggestions (scoreFn : ScheduleItem → ℚ)
    (schedule : List DBItem) (courses : List Course)
    (teachers : List Teacher) (rooms : List Room) : List Suggestion :=
  schedule.foldl (suggestionStep scoreFn courses teachers rooms) []

/-- `splitData` (dataPreprocessor.js) applied to the already-shuffled list:
the JS function first permutes its input with
`[...data].sort(() => Math.random() - 0.5)`; the permutation chosen by that
randomness is the `shuffled` argument here.  Training takes the first
`floor(n * trainFrac)` samples, validation the next `floor(n * valFrac)`,
test the rest; the third ratio parameter is accepted and unused, as in the
source. -/
def splitData (shuffled : List α) (trainFrac valFrac testFrac : ℚ) :
    List α × List α × List α :=
  let _ := testFrac
  let trainSize := (⌊(shuffled.length : ℚ) * trainFrac⌋).toNat
  let valSize := (⌊(shuffled.length : ℚ) * valFrac⌋).toNat
  (shuffled.take trainSize,
   (shuffled.drop trainSize).take valSize,
   shuffled.drop (trainSize + valSize))

/-- Modelled from the spec: the forward pass of the trained TensorFlow
variant is library code absent from the repository; `createModel` fixes its
architecture (dense 128/64/32 with ReLU, a final 1-unit sigmoid layer, dropout
inactive at inference).  ReLU activation. -/
def relu (x : ℝ) : ℝ := max x 0

/-- Modelled from the spec: dot product of a weight row with the input. -/
def dotR (w x : List ℝ) : ℝ := (List.zipWith (fun a b => a * b) w x).sum

/-- Modelled from the spec: one dense layer, one output per (row, bias) pair,
with an activation function. -/
def denseLayer (W : List (List ℝ)) (b : List ℝ) (act : ℝ → ℝ)
    (x : List ℝ) : List ℝ :=
  (W.zip b).map (fun wb => act (dotR wb.1 x + wb.2))

/-- Modelled from the spec: the sigmoid activation of the output layer. -/
noncomputable def sigmoid (z : ℝ) : ℝ := 1 / (1 + Real.exp (-z))

/-- Modelled from the spec: the weights of the trained network (three hidden
dense layers and the 1-unit output layer). -/
structure MLPWeights where
  w1 : List (List ℝ)
  b1 : List ℝ
  w2 : List (List ℝ)
  b2 : List ℝ
  w3 : List (List ℝ)
  b3 : List ℝ
  wOut : List ℝ
  bOut : ℝ

/-- Modelled from the spec: the trained model's per-item output — three
ReLU dense layers followed by the sigmoid output unit. -/
noncomputable def tfPredictOne (w : MLPWeights) (x : List ℝ) : ℝ :=
  let h1 := denseLayer w.w1 w.b1 relu x
  let h2 := denseLayer w.w2 w.b2 relu h1
  let h3 := denseLayer w.w3 w.b3 relu h2
  sigmoid (dotR w.wOut h3 + w.bOut)

lemma clamp01_nonneg (s : ℚ) : 0 ≤ clamp01 s := le_max_left 0 (min 1 s)

lemma clamp01_le_one (s : ℚ) : clamp01 s ≤ 1 :=
  max_le (by norm_num) (min_le_left 1 s)

lemma sigmoid_nonneg (z : ℝ) : 0 ≤ sigmoid z := by
  rw [sigmoid]
  positivity

lemma sigmoid_le_one (z : ℝ) : sigmoid z ≤ 1 := by
  have h : 0 < 1 + Real.exp (-z) := by positivity
  rw [sigmoid, div_le_one h]
  linarith [Real.exp_pos (-z)]

/-- C1: every score produced by the scorer lies in [0,1] for both backends:
the heuristic path ends in the clamp `max(0, min(1, score))`, and the trained
path's output unit is a sigmoid activation, so no predict/score result is
negative or greater than 1. -/
theorem C1_score_in_unit_interval :
    (∀ item : ScheduleItem,
      0 ≤ calculateHeuristicScore item ∧ calculateHeuristicScore item ≤ 1) ∧
    (∀ (w : MLPWeights) (x : List ℝ),
      0 ≤ tfPredictOne w x ∧ tfPredictOne w x ≤ 1) := by
  constructor
  · intro item
    exact ⟨clamp01_nonneg _, clamp01_le_one _⟩
  · intro w x
    exact ⟨sigmoid_nonneg _, sigmoid_le_one _⟩

/-- C5: batch scoring on the heuristic backend preserves list structure:
`predict` returns the input list mapped through `calculateHeuristicScore`
(same length, i-th output scores the i-th input), and on a singleton it
returns exactly the singleton of the item's score. -/
theorem C5_batch_structure (items : List ScheduleItem) (x : ScheduleItem) :
    predict heuristicReady items =
      Except.ok (items.map calculateHeuristicScore) ∧
    (items.map calculateHeuristicScore).length = items.length ∧
    predict heuristicReady [x] = Except.ok [calculateHeuristicScore x] := by
  refine ⟨?_, List.length_map _ _, ?_⟩ <;>
    simp [predict, heuristicReady, ModelBackend.scoreOne]

lemma lookup_eq_none_of_not_mem {β : Type} (a : String)
    (l : List (String × β)) (h : a ∉ l.map Prod.fst) : l.lookup a = none := by
  induction l with
  | nil => rfl
  | cons p tl ih =>
    simp only [List.map_cons, List.mem_cons, not_or] at h
    have hb : (a == p.1) = false := beq_eq_false_iff_ne.mpr h.1
    cases p with
    | mk k v => simpa [List.lookup, hb] using ih h.2

/-- The `days` list of `getOptimalDay`. -/
def weekDays : List String :=
  ["Monday", "Tuesday", "Wednesday", "Thursday", "Friday"]

/-- C6: missing or unknown categorical inputs normalize to the midpoint 0.5,
never 0: absent (or empty) preferred-slot lists, time slots outside the eight
known values, days outside Monday-Friday, and a missing availability value
all normalize to 0.5. -/
theorem C6_missing_normalizes_to_midpoint :
    (∀ ts : String, normalizeTimePreference ts none = 0.5) ∧
    (∀ ts : String, normalizeTimePreference ts (some []) = 0.5) ∧
    (∀ ts : String, ts ∉ getAvailableTimeSlots → normalizeTimeOfDay ts = 0.5) ∧
    (∀ d : String, d ∉ weekDays → normalizeDayOfWeek d = 0.5) ∧
    normalizeAvailability none = 0.5 := by
  refine ⟨fun ts => rfl, fun ts => rfl, ?_, ?_, rfl⟩
  · intro ts h
    have hk : timeMap.map Prod.fst = getAvailableTimeSlots := rfl
    have : timeMap.lookup ts = none :=
      lookup_eq_none_of_not_mem ts timeMap (by rw [hk]; exact h)
    simp [normalizeTimeOfDay, this, jsNumOr]
  · intro d h
    have hk : dayMap.map Prod.fst = weekDays := rfl
    have : dayMap.lookup d = none :=
      lookup_eq_none_of_not_mem d dayMap (by rw [hk]; exact h)
    simp [normalizeDayOfWeek, this, jsNumOr]

theorem C6_witness :
    normalizeTimeOfDay "08:00" = 0.5 ∧ normalizeDayOfWeek "Saturday" = 0.5 :=
  ⟨C6_missing_normalizes_to_midpoint.2.2.1 "08:00" (by decide),
   C6_missing_normalizes_to_midpoint.2.2.2.1 "Saturday" (by decide)⟩

/-- A concrete weight-load-failure environment: TensorFlow resolved, the saved
weights failed to load, and the catch's `createModel` builds the fresh network
whose forward function is constantly 0. -/
def failEnv : LoadEnv := LoadEnv.loadFail (fun _ => 0)

/-- C7 counterexample: on a weight-load failure with TensorFlow available,
`loadModel` does not activate the heuristic fallback — its `catch` re-runs
`createModel`, which (the import being cached) installs a fresh untrained
TensorFlow network with `isTensorFlow = true`. -/
theorem C7_counterexample :
    (loadModel ScheduleMLModel.init failEnv).1.model =
      some (ModelBackend.tensorflowModel (fun _ => 0)) ∧
    (loadModel ScheduleMLModel.init failEnv).1.isTensorFlow = true ∧
    (loadModel ScheduleMLModel.init failEnv).1.model ≠
      some ModelBackend.heuristicModel := by
  refine ⟨rfl, rfl, fun h => ?_⟩
  exact ModelBackend.noConfusion (Option.some.inj h)

/-- C7 (amended): no load failure escapes `loadModel`: on every environment it
returns `true` and leaves the model trained, so callers observe a ready scorer
either way; the heuristic fallback is installed exactly when the numeric
backend is unavailable, while a weight-load failure with TensorFlow available
installs the fresh untrained network built by the catch's `createModel`
(`isTensorFlow = true`). -/
theorem C7_load_failure_falls_back (m : ScheduleMLModel) (env : LoadEnv) :
    (loadModel m env).2 = true ∧
    (loadModel m env).1.isTrained = true ∧
    (env = LoadEnv.noTF →
      (loadModel m env).1.model = some ModelBackend.heuristicModel ∧
      (loadModel m env).1.isTensorFlow = false) ∧
    (∀ fresh : ScheduleItem → ℚ, env = LoadEnv.loadFail fresh →
      (loadModel m env).1.model =
        some (ModelBackend.tensorflowModel fresh) ∧
      (loadModel m env).1.isTensorFlow = true) := by
  cases env <;>
    simp [loadModel, loadModelTry, createModel, LoadEnv.tfAvail]

theorem C7_witness :
    (loadModel ScheduleMLModel.init LoadEnv.noTF).2 = true ∧
    (loadModel ScheduleMLModel.init LoadEnv.noTF).1.model =
      some ModelBackend.heuristicModel ∧
    (loadModel ScheduleMLModel.init failEnv).1.isTensorFlow = true :=
  ⟨(C7_load_failure_falls_back ScheduleMLModel.init LoadEnv.noTF).1,
   ((C7_load_failure_falls_back ScheduleMLModel.init LoadEnv.noTF).2.2.1
      rfl).1,
   ((C7_load_failure_falls_back ScheduleMLModel.init failEnv).2.2.2
      (fun _ => 0) rfl).2⟩

/-- C9: scoring requires a trained model: `predict` on the constructor state,
or on any state with no model or `isTrained = false`, returns the
`Model not trained yet` error; and after any completed `loadModel` the state
is trained and `predict` succeeds, so the error branch is unreachable. -/
theorem C9_predict_requires_trained :
    (∀ data, predict ScheduleMLModel.init data =
      Except.error "Model not trained yet") ∧
    (∀ (m : ScheduleMLModel) (data : List ScheduleItem),
      m.model = none ∨ m.isTrained = false →
      predict m data = Except.error "Model not trained yet") ∧
    (∀ (m : ScheduleMLModel) (env : LoadEnv) (data : List ScheduleItem),
      (loadModel m env).1.isTrained = true ∧
      ∃ scores, predict (loadModel m env).1 data = Except.ok scores) := by
  refine ⟨fun data => rfl, ?_, ?_⟩
  · rintro ⟨mo, tr, tf⟩ data (h | h)
    · simp only at h
      subst h
      rfl
    · simp only at h
      subst h
      cases mo <;> rfl
  · intro m env data
    cases env <;>
      exact ⟨rfl, _, rfl⟩

theorem C9_witness :
    predict ScheduleMLModel.init [] = Except.error "Model not trained yet" :=
  C9_predict_requires_trained.2.1 ScheduleMLModel.init [] (Or.inl rfl)

lemma splitData_sizes_1000 {α : Type} (shuffled : List α)
    (hl : shuffled.length = 1000) :
    (splitData shuffled 0.7 0.15 0.15).1 = shuffled.take 700 ∧
    (splitData shuffled 0.7 0.15 0.15).2.1 = (shuffled.drop 700).take 150 ∧
    (splitData shuffled 0.7 0.15 0.15).2.2 = shuffled.drop 850 := by
  have h7 : ((⌊(shuffled.length : ℚ) * 0.7⌋).toNat) = 700 := by
    rw [hl]
    have e : ((1000 : ℕ) : ℚ) * 0.7 = ((700 : ℕ) : ℚ) := by norm_num
    rw [e, Int.floor_natCast]
    rfl
  have h15 : ((⌊(shuffled.length : ℚ) * 0.15⌋).toNat) = 150 := by
    rw [hl]
    have e : ((1000 : ℕ) : ℚ) * 0.15 = ((150 : ℕ) : ℚ) := by norm_num
    rw [e, Int.floor_natCast]
    rfl
  refine ⟨?_, ?_, ?_⟩ <;> simp [splitData, h7, h15]

/-- C8: splitting a dataset of exactly 1000 samples with the ratios
0.7/0.15/0.15 yields training/validation/test sets of sizes 700/150/150
(training takes floor(0.7·n), validation the next floor(0.15·n), test the
remainder), and the three sets together are a permutation of the input data —
every sample lands in exactly one set. -/
theorem C8_split_1000 {α : Type} (data shuffled : List α)
    (hperm : shuffled.Perm data) (h : data.length = 1000) :
    (splitData shuffled 0.7 0.15 0.15).1.length = 700 ∧
    (splitData shuffled 0.7 0.15 0.15).2.1.length = 150 ∧
    (splitData shuffled 0.7 0.15 0.15).2.2.length = 150 ∧
    ((splitData shuffled 0.7 0.15 0.15).1 ++
      (splitData shuffled 0.7 0.15 0.15).2.1 ++
      (splitData shuffled 0.7 0.15 0.15).2.2).Perm data := by
  have hl : shuffled.length = 1000 := hperm.length_eq.trans h
  obtain ⟨e1, e2, e3⟩ := splitData_sizes_1000 shuffled hl
  rw [e1, e2, e3]
  refine ⟨?_, ?_, ?_, ?_⟩
  · simp [List.length_take, hl]
  · simp [List.length_take, List.length_drop, hl]
  · simp [List.length_drop, hl]
  · have hdd : shuffled.drop 850 = (shuffled.drop 700).drop 150 := by
      rw [List.drop_drop]
    have hjoin :
        shuffled.take 700 ++ ((shuffled.drop 700).take 150 ++
          shuffled.drop 850) = shuffled := by
      rw [hdd, List.take_append_drop, List.take_append_drop]
    rw [List.append_assoc, hjoin]
    exact hperm

theorem C8_witness :
    (splitData (List.range 1000) 0.7 0.15 0.15).1.length = 700 ∧
    (splitData (List.range 1000) 0.7 0.15 0.15).2.1.length = 150 ∧
    (splitData (List.range 1000) 0.7 0.15 0.15).2.2.length = 150 :=
  ⟨(C8_split_1000 (List.range 1000) (List.range 1000) (List.Perm.refl _)
      (by simp)).1,
   (C8_split_1000 (List.range 1000) (List.range 1000) (List.Perm.refl _)
      (by simp)).2.1,
   (C8_split_1000 (List.range 1000) (List.range 1000) (List.Perm.refl _)
      (by simp)).2.2.1⟩

/-- The expertise contribution as the claim states it: +0.2 on a
case-insensitive keyword match in the course name, -0.1 otherwise, only when
the teacher has a non-empty expertise list. -/
def expertiseTermSpec (t : Teacher) (c : Course) : ℚ :=
  match t.expertise with
  | some es =>
    if 0 < es.length then (if expertiseMatches es c.name then 0.2 else -0.1)
    else 0
  | none => 0

/-- The capped experience bonus as the claim states it. -/
def experienceTermSpec (t : Teacher) : ℚ :=
  match t.teachableYears with
  | some ys => min ((ys.length : ℚ) * 0.05) 0.15
  | none => 0

/-- The room-capacity contribution as the claim states it. -/
def capacityTermSpec (r : Room) (c : Course) : ℚ :=
  if c.capacity ≤ r.capacity then 0.1 else -0.2

/-- The room-type/lecture-type contribution as the claim states it. -/
def typeTermSpec (r : Room) (c : Course) : ℚ :=
  if roomTypeMatchTable.lookup r.type = some c.lectureType then 0.1 else 0

/-- The time-slot contribution as the claim states it: +0.1 for the two
earliest slots, -0.05 for the latest. -/
def slotTermSpec (ts : String) : ℚ :=
  (if ts = "09:00" ∨ ts = "10:00" then 0.1 else 0) +
  (if ts = "16:00" then -0.05 else 0)

/-- The day contribution as the claim states it: -0.05 each for Monday and
for Friday. -/
def dayTermSpec (d : String) : ℚ :=
  (if d = "Monday" then -0.05 else 0) + (if d = "Friday" then -0.05 else 0)

/-- The availability contribution as the claim states it: availability × 0.1
when the availability value is numeric. -/
def availabilityTermSpec (t : Teacher) : ℚ :=
  match t.availability with
  | some (Availability.num v) => v * 0.1
  | _ => 0

/-- The heuristic score exactly as claim C2 states it: base 0.5 plus the
seven contributions, clamped to [0,1]. -/
def specHeuristicScore (c : Course) (t : Teacher) (r : Room)
    (ts d : String) : ℚ :=
  clamp01 (0.5 + expertiseTermSpec t c + experienceTermSpec t +
    capacityTermSpec r c + typeTermSpec r c + slotTermSpec ts +
    dayTermSpec d + availabilityTermSpec t)

lemma teacherCompatAdjust_eq (t : Teacher) (c : Course) (s : ℚ) :
    teacherCompatAdjust (some t) (some c) s =
      s + expertiseTermSpec t c + experienceTermSpec t := by
  obtain ⟨oid, exp, ys, av⟩ := t
  cases exp <;> cases ys <;>
    simp only [teacherCompatAdjust, expertiseTermSpec, experienceTermSpec] <;>
    (try split_ifs) <;> ring

lemma roomSuitabilityAdjust_eq (r : Room) (c : Course) (s : ℚ) :
    roomSuitabilityAdjust (some r) (some c) s =
      s + capacityTermSpec r c + typeTermSpec r c := by
  simp only [roomSuitabilityAdjust, capacityTermSpec, typeTermSpec]
  split_ifs <;> ring

lemma timePreferenceAdjust_eq (ts : String) (s : ℚ) :
    timePreferenceAdjust (some ts) s = s + slotTermSpec ts := by
  simp only [timePreferenceAdjust, slotTermSpec]
  by_cases h0 : ts = ""
  · subst h0
    simp
  by_cases h9 : ts = "09:00"
  · subst h9
    simp
  by_cases h10 : ts = "10:00"
  · subst h10
    simp
  by_cases h16 : ts = "16:00"
  · subst h16
    simp
    ring
  · simp [h0, h9, h10, h16]

lemma dayPreferenceAdjust_eq (d : String) (s : ℚ) :
    dayPreferenceAdjust (some d) s = s + dayTermSpec d := by
  simp only [dayPreferenceAdjust, dayTermSpec]
  by_cases h0 : d = ""
  · subst h0
    simp
  by_cases hm : d = "Monday"
  · subst hm
    simp
    ring
  by_cases hf : d = "Friday"
  · subst hf
    simp
    ring
  · simp [h0, hm, hf]

lemma availabilityAdjust_eq (t : Teacher) (s : ℚ) :
    availabilityAdjust (some t) s = s + availabilityTermSpec t := by
  obtain ⟨oid, exp, ys, av⟩ := t
  rcases av with _ | av
  · simp [availabilityAdjust, availabilityTermSpec]
  rcases av with v | g
  · simp only [availabilityAdjust, availabilityTermSpec]
    split_ifs with h
    · ring
    · rw [not_not] at h
      rw [h]
      ring
  · simp [availabilityAdjust, availabilityTermSpec]

/-- C2: on a fully-populated schedule item the heuristic scorer computes
exactly base 0.5 plus the expertise, experience, room-capacity, room-type,
time-slot, day and availability contributions of the claim, clamped
to [0,1]. -/
theorem C2_heuristic_formula (c : Course) (t : Teacher) (r : Room)
    (ts d : String) :
    calculateHeuristicScore ⟨some c, some t, some r, some ts, some d⟩ =
      specHeuristicScore c t r ts d := by
  simp only [calculateHeuristicScore, specHeuristicScore]
  rw [teacherCompatAdjust_eq, roomSuitabilityAdjust_eq,
    timePreferenceAdjust_eq, dayPreferenceAdjust_eq, availabilityAdjust_eq]

/-- The per-item classification exactly as claim C3 states it: for a schedule
item whose references resolve, score < 0.4 yields (`reschedule`, `high`),
0.4 ≤ score < 0.6 yields (`improve`, `medium`), and score ≥ 0.6 yields
nothing; unresolved items are skipped. -/
def specClassifyC3 (scoreFn : ScheduleItem → ℚ) (courses : List Course)
    (teachers : List Teacher) (rooms : List Room) (item : DBItem) :
    Option (String × String × DBItem) :=
  match courses.find? (fun c => c.oid = item.course),
        teachers.find? (fun t => t.oid = item.teacher),
        rooms.find? (fun r => r.oid = item.room) with
  | some course, some teacher, some room =>
    let s := scoreFn ⟨some course, some teacher, some room,
      some item.startTime, some item.day⟩
    if s < 0.4 then some ("reschedule", "high", item)
    else if 0.4 ≤ s ∧ s < 0.6 then some ("improve", "medium", item)
    else none
  | _, _, _ => none

lemma suggestionStep_map (scoreFn : ScheduleItem → ℚ) (courses : List Course)
    (teachers : List Teacher) (rooms : List Room) (acc : List Suggestion)
    (item : DBItem) :
    (suggestionStep scoreFn courses teachers rooms acc item).map
        (fun sg => (sg.type, sg.priority, sg.item)) =
      acc.map (fun sg => (sg.type, sg.priority, sg.item)) ++
        (specClassifyC3 scoreFn courses teachers rooms item).toList := by
  rcases hc : courses.find? (fun c => c.oid = item.course) with _ | course <;>
    rcases ht : teachers.find? (fun t => t.oid = item.teacher) with _ | teacher <;>
    rcases hr : rooms.find? (fun r => r.oid = item.room) with _ | room <;>
    simp only [suggestionStep, specClassifyC3, hc, ht, hr, Option.toList,
      List.append_nil]
  set s := scoreFn ⟨some course, some teacher, some room,
    some item.startTime, some item.day⟩ with hs
  by_cases hA : s < 0.4
  · simp [hA]
  · by_cases hC : s < 0.6
    · have hB : 0.4 ≤ s ∧ s < 0.6 := ⟨not_lt.mp hA, hC⟩
      simp [hA, hC, hB]
    · have hB : ¬(0.4 ≤ s ∧ s < 0.6) := fun h => hC h.2
      simp [hA, hC, hB]

lemma getOptimizationSuggestions_foldl (scoreFn : ScheduleItem → ℚ)
    (courses : List Course) (teachers : List Teacher) (rooms : List Room) :
    ∀ (schedule : List DBItem) (acc : List Suggestion),
      ((schedule.foldl (suggestionStep scoreFn courses teachers rooms)
          acc).map (fun sg => (sg.type, sg.priority, sg.item))) =
        acc.map (fun sg => (sg.type, sg.priority, sg.item)) ++
          schedule.filterMap (specClassifyC3 scoreFn courses teachers rooms)
  | [], acc => by simp
  | i :: tl, acc => by
    rw [List.foldl_cons,
      getOptimizationSuggestions_foldl scoreFn courses teachers rooms tl _,
      suggestionStep_map, List.filterMap_cons]
    cases specClassifyC3 scoreFn courses teachers rooms i <;>
      simp [Option.toList]

/-- C3: the diagnostics engine classifies every resolving schedule item
exactly by its score: below 0.4 a `reschedule` suggestion with priority
`high`, in [0.4, 0.6) an `improve` suggestion with priority `medium`, and at
0.6 or above no suggestion at all — the emitted (type, priority, item) stream
equals the claim's classification of the schedule. -/
theorem C3_suggestion_classification (scoreFn : ScheduleItem → ℚ)
    (schedule : List DBItem) (courses : List Course)
    (teachers : List Teacher) (rooms : List Room) :
    (getOptimizationSuggestions scoreFn schedule courses teachers rooms).map
        (fun sg => (sg.type, sg.priority, sg.item)) =
      schedule.filterMap (specClassifyC3 scoreFn courses teachers rooms) := by
  rw [getOptimizationSuggestions,
    getOptimizationSuggestions_foldl scoreFn courses teachers rooms schedule []]
  rfl

lemma clamp01_eq_one {s : ℚ} (h : 1 ≤ s) : clamp01 s = 1 := by
  rw [clamp01, min_eq_left h, max_eq_right (by norm_num : (0:ℚ) ≤ 1)]

lemma clamp01_eq_self {s : ℚ} (h0 : 0 ≤ s) (h1 : s ≤ 1) : clamp01 s = s := by
  rw [clamp01, min_eq_right h1, max_eq_right h0]

instance : IsTotal Recommendation (fun a b => b.score ≤ a.score) :=
  ⟨fun a b => le_total b.score a.score⟩

instance : IsTrans Recommendation (fun a b => b.score ≤ a.score) :=
  ⟨fun _ _ _ h1 h2 => le_trans h2 h1⟩

/-- C4 (amended): each course's recommendation list holds at most 5 entries,
ordered by non-increasing (descending, possibly tied) score; this holds for
every backend, every draw of the random day choice and all inputs.  The
sort carries no secondary key, so equal-score entries keep their
candidate-generation order rather than ascending teacher identifiers. -/
theorem C4_top5_sorted_desc (backend : ModelBackend)
    (dayChoice : Course → Teacher → Room → String) (course : Course)
    (teachers : List Teacher) (rooms : List Room) :
    (recommendationsForCourse backend dayChoice course teachers
        rooms).length ≤ 5 ∧
    List.Pairwise (fun a b => b.score ≤ a.score)
      (recommendationsForCourse backend dayChoice course teachers rooms) := by
  constructor
  · simp only [recommendationsForCourse]
    rw [List.length_take]
    exact min_le_left _ _
  · simp only [recommendationsForCourse]
    exact List.Pairwise.sublist (List.take_sublist _ _)
      (List.sorted_insertionSort _ _)

/-- A theory course whose name matches the sample teachers' expertise. -/
def course0 : Course := ⟨1, "Algebra", 30, 1, "theory"⟩

/-- A suitable sample teacher with identifier 1. -/
def teacherA : Teacher := ⟨1, some ["algebra"], some [1], none⟩

/-- A suitable sample teacher with identifier 2, listed before `teacherA`. -/
def teacherB : Teacher := ⟨2, some ["algebra"], some [1], none⟩

/-- A sample classroom with sufficient capacity. -/
def room0 : Room := ⟨1, 30, "classroom"⟩

/-- One concrete draw of the random `getOptimalDay` choice. -/
def tueChoice : Course → Teacher → Room → String := fun _ _ _ => "Tuesday"

lemma scoreEval (t : Teacher) (ts : String)
    (hexp : t.expertise = some ["algebra"])
    (hys : t.teachableYears = some [1]) (hav : t.availability = none) :
    ModelBackend.scoreOne ModelBackend.heuristicModel
      ⟨some course0, some t, some room0, some ts, some "Tuesday"⟩ =
      clamp01 (timePreferenceAdjust (some ts) 0.95) := by
  simp only [ModelBackend.scoreOne, calculateHeuristicScore]
  have hm : expertiseMatches ["algebra"] course0.name = true := by decide
  have h1 : teacherCompatAdjust (some t) (some course0) 0.5 = 0.75 := by
    simp only [teacherCompatAdjust, hexp, hys, hm]
    norm_num
  have h2 : roomSuitabilityAdjust (some room0) (some course0) 0.75 = 0.95 := by
    simp only [roomSuitabilityAdjust]
    norm_num [room0, course0, roomTypeMatchTable]
  have h3 : ∀ s : ℚ, dayPreferenceAdjust (some "Tuesday") s = s := by
    intro s
    simp [dayPreferenceAdjust]
  have h4 : ∀ s : ℚ, availabilityAdjust (some t) s = s := by
    intro s
    simp [availabilityAdjust, hav]
  rw [h1, h2, h3, h4]

lemma slot09 : clamp01 (timePreferenceAdjust (some "09:00") 0.95) = 1 := by
  rw [show timePreferenceAdjust (some "09:00") (0.95:ℚ) = 1.05 by
    simp [timePreferenceAdjust]; norm_num]
  exact clamp01_eq_one (by norm_num)

lemma slot10 : clamp01 (timePreferenceAdjust (some "10:00") 0.95) = 1 := by
  rw [show timePreferenceAdjust (some "10:00") (0.95:ℚ) = 1.05 by
    simp [timePreferenceAdjust]; norm_num]
  exact clamp01_eq_one (by norm_num)

lemma slot11 : clamp01 (timePreferenceAdjust (some "11:00") 0.95) = 0.95 := by
  rw [show timePreferenceAdjust (some "11:00") (0.95:ℚ) = 0.95 by
    simp [timePreferenceAdjust]]
  exact clamp01_eq_self (by norm_num) (by norm_num)

lemma slot12 : clamp01 (timePreferenceAdjust (some "12:00") 0.95) = 0.95 := by
  rw [show timePreferenceAdjust (some "12:00") (0.95:ℚ) = 0.95 by
    simp [timePreferenceAdjust]]
  exact clamp01_eq_self (by norm_num) (by norm_num)

lemma slot13 : clamp01 (timePreferenceAdjust (some "13:00") 0.95) = 0.95 := by
  rw [show timePreferenceAdjust (some "13:00") (0.95:ℚ) = 0.95 by
    simp [timePreferenceAdjust]]
  exact clamp01_eq_self (by norm_num) (by norm_num)

lemma slot14 : clamp01 (timePreferenceAdjust (some "14:00") 0.95) = 0.95 := by
  rw [show timePreferenceAdjust (some "14:00") (0.95:ℚ) = 0.95 by
    simp [timePreferenceAdjust]]
  exact clamp01_eq_self (by norm_num) (by norm_num)

lemma slot15 : clamp01 (timePreferenceAdjust (some "15:00") 0.95) = 0.95 := by
  rw [show timePreferenceAdjust (some "15:00") (0.95:ℚ) = 0.95 by
    simp [timePreferenceAdjust]]
  exact clamp01_eq_self (by norm_num) (by norm_num)

lemma slot16 : clamp01 (timePreferenceAdjust (some "16:00") 0.95) = 0.9 := by
  rw [show timePreferenceAdjust (some "16:00") (0.95:ℚ) = 0.9 by
    simp [timePreferenceAdjust]; norm_num]
  exact clamp01_eq_self (by norm_num) (by norm_num)

lemma conf1 : calculateConfidence 1 = 100 := by
  norm_num [calculateConfidence, round_eq]

lemma conf95 : calculateConfidence (0.95 : ℚ) = 95 := by
  norm_num [calculateConfidence, round_eq]

lemma conf90 : calculateConfidence (0.9 : ℚ) = 90 := by
  norm_num [calculateConfidence, round_eq]

set_option maxHeartbeats 1000000 in
lemma c4_out :
    (recommendationsForCourse ModelBackend.heuristicModel tueChoice course0
      [teacherB, teacherA] [room0]) =
    [⟨course0, teacherB, room0, "09:00", "Tuesday", 1, 100⟩,
     ⟨course0, teacherB, room0, "10:00", "Tuesday", 1, 100⟩,
     ⟨course0, teacherA, room0, "09:00", "Tuesday", 1, 100⟩,
     ⟨course0, teacherA, room0, "10:00", "Tuesday", 1, 100⟩,
     ⟨course0, teacherB, room0, "11:00", "Tuesday", 0.95, 95⟩] := by
  have hA : isTeacherSuitable course0 teacherA = true := by decide
  have hB : isTeacherSuitable course0 teacherB = true := by decide
  have hR : isRoomSuitable course0 room0 = true := by decide
  simp only [recommendationsForCourse, getAvailableTimeSlots, tueChoice,
    List.filter, hA, hB, hR, List.flatMap_cons, List.flatMap_nil,
    List.map_cons, List.map_nil, List.append_nil, List.cons_append,
    List.nil_append,
    scoreEval teacherA _ rfl rfl rfl, scoreEval teacherB _ rfl rfl rfl,
    slot09, slot10, slot11, slot12, slot13, slot14, slot15, slot16,
    conf1, conf95, conf90]
  norm_num [List.insertionSort, List.orderedInsert]

/-- C4 counterexample: with teachers listed as [identifier 2, identifier 1]
and one suitable room, the concrete output contains adjacent equal-score
entries whose teacher identifiers descend (2, 2, 1, 1, 2), so the claimed
ordering — strictly descending score with equal scores tie-broken by
ascending teacher identifier — fails on this output. -/
theorem C4_counterexample :
    ((recommendationsForCourse ModelBackend.heuristicModel tueChoice course0
        [teacherB, teacherA] [room0]).map
      (fun x => (x.teacher.oid, x.score)) =
      [(2, 1), (2, 1), (1, 1), (1, 1), (2, 0.95)]) ∧
    ¬ List.Pairwise
        (fun a b => b.score < a.score ∨
          (a.score = b.score ∧ a.teacher.oid ≤ b.teacher.oid))
        (recommendationsForCourse ModelBackend.heuristicModel tueChoice
          course0 [teacherB, teacherA] [room0]) := by
  constructor
  · rw [c4_out]
    simp [teacherA, teacherB]
  · rw [c4_out]
    intro hp
    obtain ⟨h1, -⟩ := List.pairwise_cons.mp hp
    have h2 := h1 (⟨course0, teacherA, room0, "09:00", "Tuesday", 1, 100⟩ :
      Recommendation) (by simp)
    rcases h2 with h | h
    · exact absurd h (lt_irrefl _)
    · have h3 := h.2
      simp [teacherA, teacherB] at h3

/-- C10: for every non-lab course the recommendation room filter accepts
rooms of type `classroom` only, so a `lecture-hall` room never appears in any
recommendation — even though `normalizeRoomTypeMatch` and the heuristic
scorer's `roomTypeMatch` table both treat `lecture-hall` as matching theory
lectures. -/
theorem C10_nonlab_recommendations_classroom_only :
    (∀ (backend : ModelBackend)
      (dayChoice : Course → Teacher → Room → String) (course : Course)
      (teachers : List Teacher) (rooms : List Room) (rec : Recommendation),
      course.lectureType ≠ "lab" →
      rec ∈ recommendationsForCourse backend dayChoice course teachers rooms →
      rec.room.type = "classroom" ∧ rec.room.type ≠ "lecture-hall") ∧
    normalizeRoomTypeMatch "lecture-hall" "theory" = 1 ∧
    roomTypeMatchTable.lookup "lecture-hall" = some "theory" := by
  refine ⟨?_, by decide, by decide⟩
  intro backend dayChoice course teachers rooms rec hlab hmem
  simp only [recommendationsForCourse] at hmem
  have hmem2 := (List.perm_insertionSort
    (fun a b : Recommendation => b.score ≤ a.score) _).mem_iff.mp
    (List.mem_of_mem_take hmem)
  simp only [List.mem_flatMap, List.mem_map, List.mem_filter] at hmem2
  obtain ⟨t, -, r, ⟨-, hr⟩, ts, -, heq⟩ := hmem2
  simp only [isRoomSuitable, Bool.and_eq_true, decide_eq_true_eq] at hr
  have htype : r.type = "classroom" := by
    rw [hr.2, if_neg hlab]
  subst heq
  refine ⟨htype, ?_⟩
  rw [htype]
  decide

/-- The head recommendation of the single-teacher, single-classroom sample. -/
def sampleRec : Recommendation :=
  ⟨course0, teacherA, room0, "09:00", "Tuesday", 1, 100⟩

set_option maxHeartbeats 1000000 in
lemma c10_out :
    (recommendationsForCourse ModelBackend.heuristicModel tueChoice course0
      [teacherA] [room0]) =
    [⟨course0, teacherA, room0, "09:00", "Tuesday", 1, 100⟩,
     ⟨course0, teacherA, room0, "10:00", "Tuesday", 1, 100⟩,
     ⟨course0, teacherA, room0, "11:00", "Tuesday", 0.95, 95⟩,
     ⟨course0, teacherA, room0, "12:00", "Tuesday", 0.95, 95⟩,
     ⟨course0, teacherA, room0, "13:00", "Tuesday", 0.95, 95⟩] := by
  have hA : isTeacherSuitable course0 teacherA = true := by decide
  have hR : isRoomSuitable course0 room0 = true := by decide
  simp only [recommendationsForCourse, getAvailableTimeSlots, tueChoice,
    List.filter, hA, hR, List.flatMap_cons, List.flatMap_nil,
    List.map_cons, List.map_nil, List.append_nil, List.cons_append,
    List.nil_append, scoreEval teacherA _ rfl rfl rfl,
    slot09, slot10, slot11, slot12, slot13, slot14, slot15, slot16,
    conf1, conf95, conf90]
  norm_num [List.insertionSort, List.orderedInsert]

theorem C10_witness :
    sampleRec.room.type = "classroom" ∧ sampleRec.room.type ≠ "lecture-hall" :=
  C10_nonlab_recommendations_classroom_only.1 ModelBackend.heuristicModel
    tueChoice course0 [teacherA] [room0] sampleRec (by decide)
    (by rw [c10_out]; simp [sampleRec])
